import Mathlib

/-!
# PinholeViewer — verification of the exposure model and viewfinder geometry

Shallow embedding of the computational core of the PinholeViewer app:
the exposure-time pipeline (`calculateFStop`, `calculateExposure`,
`formatExposure`) and the viewfinder-geometry function
(`getEffectiveDimensions`, `calculateViewfinderSize`) of the three
viewfinder screen variants, and the profile load/save state transitions of
the camera-settings screen.

Numbers are embedded as elements of a linear ordered field (instantiated at
`ℚ` where everything is decidable and at `ℝ` where the reciprocity
correction `x ^ 1.3` forces real exponentiation); machine floating point is
idealised as exact field arithmetic.  JavaScript's `Math.round`,
`Math.floor`, `%` on positive numbers, `toFixed(1)` and
`parseFloat`-of-a-one-decimal rendering are modelled by `round`, `Int.floor`,
subtraction of the floored multiple, `toFixedOne` and `parseFloatFixedOne`.
-/

/-- Film orientation of the settings record (`FilmOrientation` in the app's
type module). -/
inductive FilmOrientation where
  | landscape : FilmOrientation
  | portrait : FilmOrientation
deriving DecidableEq, Repr

/-- Modelled from the spec: a film format is "a named entity with `width`,
`height` in consistent length units — the physical film frame dimensions"
(the `types` module that declares it is not among the repository's staged
files). -/
structure FilmFormat (K : Type) where
  name : String
  width : K
  height : K
deriving DecidableEq, Repr

/-- Modelled from the spec: a lighting condition is "a static catalog entry
with a `name` and a reference `fStop` value, used only as a lookup keyed by
`selectedCondition`" (the `types` module that declares it and the concrete
`LIGHTING_CONDITIONS` list are not among the staged files, so the catalog
is passed as an explicit list parameter below). -/
structure LightingCondition (K : Type) where
  name : String
  fStop : K
deriving DecidableEq, Repr

/-- Modelled from the spec: the settings record (`AppSettings` in the app's
type module), with the fields § 3 of the spec lists.  `filmOrientation` is
optional ("absent treated as landscape"), `selectedCondition` is an optional
name, `bracketStops` ranges over whole stops (the slider steps by 1 over
[-3, 3]), and the numeric fields are field elements. -/
structure AppSettings (K : Type) where
  focalLength : K
  pinholeSize : K
  filmFormat : FilmFormat K
  filmOrientation : Option FilmOrientation
  iso : K
  selectedCondition : Option String
  bracketStops : ℤ
  useReciprocityFailure : Bool
  useRedFilter : Bool
deriving DecidableEq, Repr

section JsPrimitives

variable {K : Type} [LinearOrderedField K] [FloorRing K]

/-- Model of JavaScript's `x.toFixed(1)` for the magnitudes used here: the decimal
string with one digit after the point, obtained from `round (10 * x)`
(ECMA-262 `toFixed` picks the closest scaled integer, the larger one on a
tie, which is rounding half toward `+∞` — Mathlib's `round`). -/
def toFixedOne (x : K) : String :=
  let n : ℤ := round (10 * x)
  toString (n / 10) ++ "." ++ toString (n % 10)

/-- Model of `parseFloat(x.toFixed(1))`: JavaScript renders `x` to one decimal digit
and parses the decimal string back, so the value is `x` rounded to the
nearest tenth (half toward `+∞`). -/
def parseFloatFixedOne (x : K) : K :=
  ((round (10 * x) : ℤ) : K) / 10

end JsPrimitives

/-! ## `src/frontend/screens/ViewfinderScreen.tsx` -/

namespace ViewfinderScreen

variable {K : Type} [LinearOrderedField K]

/-- Source `calculateFStop`: `(settings.focalLength / settings.pinholeSize).toFixed(1)`. -/
def calculateFStop [FloorRing K] (settings : AppSettings K) : String :=
  toFixedOne (settings.focalLength / settings.pinholeSize)

/-- Source `getEffectiveDimensions`: the film format's width and height, swapped when
`filmOrientation` is `portrait`; an absent orientation defaults to
`landscape` (`settings.filmOrientation || 'landscape'`). -/
def getEffectiveDimensions (settings : AppSettings K) : K × K :=
  let width := settings.filmFormat.width
  let height := settings.filmFormat.height
  let orientation := settings.filmOrientation.getD FilmOrientation.landscape
  if orientation = FilmOrientation.portrait then (height, width) else (width, height)

/-- Source `calculateViewfinderSize`: fits a rectangle of the film's aspect ratio
into the layout budget of the current device orientation
(`isDeviceLandscape = dimensions.width > dimensions.height`). -/
def calculateViewfinderSize (screenWidth screenHeight : K)
    (settings : AppSettings K) : K × K :=
  let isDeviceLandscape := screenHeight < screenWidth
  let effectiveDims := getEffectiveDimensions settings
  let filmAspectRatio := effectiveDims.1 / effectiveDims.2
  if isDeviceLandscape then
    -- Landscape device: viewfinder on left, use ~60% of screen width
    let availableWidth := screenWidth * 0.58
    let availableHeight := screenHeight - 20
    let viewfinderHeight := availableHeight * 0.92
    let viewfinderWidth := viewfinderHeight * filmAspectRatio
    if availableWidth < viewfinderWidth then
      (availableWidth, availableWidth / filmAspectRatio)
    else
      (viewfinderWidth, viewfinderHeight)
  else
    -- Portrait device: viewfinder on top
    let availableWidth := screenWidth - 32
    let availableHeight := screenHeight * 0.50
    let viewfinderWidth := availableWidth * 0.95
    let viewfinderHeight := viewfinderWidth / filmAspectRatio
    if availableHeight < viewfinderHeight then
      (availableHeight * filmAspectRatio, availableHeight)
    else
      (viewfinderWidth, viewfinderHeight)

/-- Source `formatExposure(seconds)`: `"1/{round(1/s)}s"` below one second, one
decimal place with an `"s"` suffix below a minute, and
`"{floor(s/60)}m {round(s % 60)}s"` (the seconds part dropped when it rounds
to zero) otherwise. -/
def formatExposure [FloorRing K] (seconds : K) : String :=
  if seconds < 1 then
    "1/" ++ toString (round (1 / seconds)) ++ "s"
  else if seconds < 60 then
    toFixedOne seconds ++ "s"
  else
    let minutes : ℤ := ⌊seconds / 60⌋
    let secs : ℤ := round (seconds - 60 * ((⌊seconds / 60⌋ : ℤ) : K))
    if 0 < secs then
      toString minutes ++ "m " ++ toString secs ++ "s"
    else
      toString minutes ++ "m"

/-- The pre-format exposure time of `calculateExposure`: `null` when no
lighting condition is selected (JavaScript's `!settings.selectedCondition`
is also true for the empty string) or the exact-name lookup in the catalog
fails, else `1/iso` scaled by the squared f-stop ratio, the reciprocity
correction, the red-filter factor and the bracketing multiplier, in the
source's order. -/
noncomputable def exposureTimeOf (conditions : List (LightingCondition ℝ))
    (settings : AppSettings ℝ) : Option ℝ :=
  match settings.selectedCondition with
  | none => none
  | some selected =>
    if selected = "" then none
    else
      match conditions.find? (fun c => c.name == selected) with
      | none => none
      | some condition =>
        let actualFStop := parseFloatFixedOne
          (settings.focalLength / settings.pinholeSize)
        let referenceFStop := condition.fStop
        let baseExposure := 1 / settings.iso
        let exposureTime0 := baseExposure * (actualFStop / referenceFStop) ^ 2
        let exposureTime1 :=
          if settings.useReciprocityFailure ∧ 1 < exposureTime0 then
            exposureTime0 ^ (1.3 : ℝ)
          else exposureTime0
        let exposureTime2 :=
          if settings.useRedFilter then exposureTime1 * 8 else exposureTime1
        some (exposureTime2 * (2 : ℝ) ^ settings.bracketStops)

/-- Source `calculateExposure`: the pre-format exposure time rendered by
`formatExposure`, `null` when no exposure is available. -/
noncomputable def calculateExposure (conditions : List (LightingCondition ℝ))
    (settings : AppSettings ℝ) : Option String :=
  (exposureTimeOf conditions settings).map formatExposure

end ViewfinderScreen

/-! ## `src/unnamed/part_002` (superseded viewfinder screen draft) -/

namespace Part002

variable {K : Type} [LinearOrderedField K]

/-- Copy of `calculateFStop` in `part_002` (identical to the main screen's). -/
def calculateFStop [FloorRing K] (settings : AppSettings K) : String :=
  toFixedOne (settings.focalLength / settings.pinholeSize)

/-- Copy of `getEffectiveDimensions` in `part_002` (identical to the main screen's). -/
def getEffectiveDimensions (settings : AppSettings K) : K × K :=
  let width := settings.filmFormat.width
  let height := settings.filmFormat.height
  let orientation := settings.filmOrientation.getD FilmOrientation.landscape
  if orientation = FilmOrientation.portrait then (height, width) else (width, height)

/-- Variant `calculateViewfinderSize` of `part_002`: same shape as the main
screen's but with different layout constants
(`isScreenLandscape = screenWidth > screenHeight` is computed inside). -/
def calculateViewfinderSize (screenWidth screenHeight : K)
    (settings : AppSettings K) : K × K :=
  let isScreenLandscape := screenHeight < screenWidth
  let effectiveDims := getEffectiveDimensions settings
  let filmAspectRatio := effectiveDims.1 / effectiveDims.2
  if isScreenLandscape then
    let availableHeight := screenHeight - 200
    let viewfinderHeight := availableHeight * 0.85
    let viewfinderWidth := viewfinderHeight * filmAspectRatio
    if screenWidth * 0.85 < viewfinderWidth then
      (screenWidth * 0.85, screenWidth * 0.85 / filmAspectRatio)
    else
      (viewfinderWidth, viewfinderHeight)
  else
    let availableWidth := screenWidth - 48
    let availableHeight := screenHeight * 0.55
    let viewfinderWidth := availableWidth * 0.95
    let viewfinderHeight := viewfinderWidth / filmAspectRatio
    if availableHeight < viewfinderHeight then
      (availableHeight * filmAspectRatio, availableHeight)
    else
      (viewfinderWidth, viewfinderHeight)

/-- Copy of `formatExposure` in `part_002` (identical to the main screen's). -/
def formatExposure [FloorRing K] (seconds : K) : String :=
  if seconds < 1 then
    "1/" ++ toString (round (1 / seconds)) ++ "s"
  else if seconds < 60 then
    toFixedOne seconds ++ "s"
  else
    let minutes : ℤ := ⌊seconds / 60⌋
    let secs : ℤ := round (seconds - 60 * ((⌊seconds / 60⌋ : ℤ) : K))
    if 0 < secs then
      toString minutes ++ "m " ++ toString secs ++ "s"
    else
      toString minutes ++ "m"

/-- The pre-format exposure time of `part_002`'s `calculateExposure`
(identical to the main screen's). -/
noncomputable def exposureTimeOf (conditions : List (LightingCondition ℝ))
    (settings : AppSettings ℝ) : Option ℝ :=
  match settings.selectedCondition with
  | none => none
  | some selected =>
    if selected = "" then none
    else
      match conditions.find? (fun c => c.name == selected) with
      | none => none
      | some condition =>
        let actualFStop := parseFloatFixedOne
          (settings.focalLength / settings.pinholeSize)
        let referenceFStop := condition.fStop
        let baseExposure := 1 / settings.iso
        let exposureTime0 := baseExposure * (actualFStop / referenceFStop) ^ 2
        let exposureTime1 :=
          if settings.useReciprocityFailure ∧ 1 < exposureTime0 then
            exposureTime0 ^ (1.3 : ℝ)
          else exposureTime0
        let exposureTime2 :=
          if settings.useRedFilter then exposureTime1 * 8 else exposureTime1
        some (exposureTime2 * (2 : ℝ) ^ settings.bracketStops)

/-- Copy of `calculateExposure` in `part_002` (identical to the main screen's). -/
noncomputable def calculateExposure (conditions : List (LightingCondition ℝ))
    (settings : AppSettings ℝ) : Option String :=
  (exposureTimeOf conditions settings).map formatExposure

end Part002

/-! ## `src/unnamed/part_003` (superseded viewfinder screen draft) -/

namespace Part003

variable {K : Type} [LinearOrderedField K]

/-- Copy of `calculateFStop` in `part_003` (identical to the main screen's). -/
def calculateFStop [FloorRing K] (settings : AppSettings K) : String :=
  toFixedOne (settings.focalLength / settings.pinholeSize)

/-- Copy of `getEffectiveDimensions` in `part_003` (identical to the main screen's). -/
def getEffectiveDimensions (settings : AppSettings K) : K × K :=
  let width := settings.filmFormat.width
  let height := settings.filmFormat.height
  let orientation := settings.filmOrientation.getD FilmOrientation.landscape
  if orientation = FilmOrientation.portrait then (height, width) else (width, height)

/-- Variant `calculateViewfinderSize` of `part_003`: same shape as the main
screen's but with different layout constants. -/
def calculateViewfinderSize (screenWidth screenHeight : K)
    (settings : AppSettings K) : K × K :=
  let isLandscape := screenHeight < screenWidth
  let effectiveDims := getEffectiveDimensions settings
  let filmAspectRatio := effectiveDims.1 / effectiveDims.2
  if isLandscape then
    -- Landscape: viewfinder on RIGHT side, use ~58% of screen width
    let availableWidth := screenWidth * 0.56
    let availableHeight := screenHeight - 80
    let viewfinderHeight := availableHeight * 0.85
    let viewfinderWidth := viewfinderHeight * filmAspectRatio
    if availableWidth * 0.9 < viewfinderWidth then
      (availableWidth * 0.9, availableWidth * 0.9 / filmAspectRatio)
    else
      (viewfinderWidth, viewfinderHeight)
  else
    -- Portrait: viewfinder centered
    let availableWidth := screenWidth - 32
    let availableHeight := screenHeight * 0.50
    let viewfinderWidth := availableWidth * 0.95
    let viewfinderHeight := viewfinderWidth / filmAspectRatio
    if availableHeight < viewfinderHeight then
      (availableHeight * filmAspectRatio, availableHeight)
    else
      (viewfinderWidth, viewfinderHeight)

/-- Copy of `formatExposure` in `part_003` (identical to the main screen's). -/
def formatExposure [FloorRing K] (seconds : K) : String :=
  if seconds < 1 then
    "1/" ++ toString (round (1 / seconds)) ++ "s"
  else if seconds < 60 then
    toFixedOne seconds ++ "s"
  else
    let minutes : ℤ := ⌊seconds / 60⌋
    let secs : ℤ := round (seconds - 60 * ((⌊seconds / 60⌋ : ℤ) : K))
    if 0 < secs then
      toString minutes ++ "m " ++ toString secs ++ "s"
    else
      toString minutes ++ "m"

/-- The pre-format exposure time of `part_003`'s `calculateExposure`
(identical to the main screen's). -/
noncomputable def exposureTimeOf (conditions : List (LightingCondition ℝ))
    (settings : AppSettings ℝ) : Option ℝ :=
  match settings.selectedCondition with
  | none => none
  | some selected =>
    if selected = "" then none
    else
      match conditions.find? (fun c => c.name == selected) with
      | none => none
      | some condition =>
        let actualFStop := parseFloatFixedOne
          (settings.focalLength / settings.pinholeSize)
        let referenceFStop := condition.fStop
        let baseExposure := 1 / settings.iso
        let exposureTime0 := baseExposure * (actualFStop / referenceFStop) ^ 2
        let exposureTime1 :=
          if settings.useReciprocityFailure ∧ 1 < exposureTime0 then
            exposureTime0 ^ (1.3 : ℝ)
          else exposureTime0
        let exposureTime2 :=
          if settings.useRedFilter then exposureTime1 * 8 else exposureTime1
        some (exposureTime2 * (2 : ℝ) ^ settings.bracketStops)

/-- Copy of `calculateExposure` in `part_003` (identical to the main screen's). -/
noncomputable def calculateExposure (conditions : List (LightingCondition ℝ))
    (settings : AppSettings ℝ) : Option String :=
  (exposureTimeOf conditions settings).map formatExposure

end Part003

/-! ## `src/unnamed/part_001` (camera settings screen: profile storage) -/

namespace CameraSettingsScreen

/-- The `Profile` interface of the camera-settings screen: a named snapshot
of the camera-relevant settings fields with an opaque string id. -/
structure Profile (K : Type) where
  id : String
  name : String
  focalLength : K
  pinholeSize : K
  filmFormat : FilmFormat K
  filmOrientation : FilmOrientation
  iso : K
deriving DecidableEq, Repr

/-- The outcome of `AsyncStorage.getItem('camera_profiles')` followed by
`JSON.parse`: `error` when the read (or the parse) throws, `ok none` when
nothing is stored, `ok (some ps)` when a profile list is stored. -/
def GetItemOutcome (K : Type) := Except String (Option (List (Profile K)))

/-- Source `loadProfiles`: the in-memory profile list after the call, given the
list before it and the storage-read outcome.  The whole body is wrapped in
`try/catch`; the `catch` arm only logs, so a failed read leaves the state
as it was, and so does an empty store. -/
def loadProfiles {K : Type} (profiles : List (Profile K))
    (read : GetItemOutcome K) : List (Profile K) :=
  match read with
  | Except.error _ => profiles
  | Except.ok none => profiles
  | Except.ok (some stored) => stored

/-- The guard `!profileName.trim()`: JavaScript trims leading and trailing
whitespace and tests falsiness, so the early return fires exactly when the
typed name consists only of whitespace characters. -/
def isBlankName (profileName : String) : Bool :=
  profileName.data.all Char.isWhitespace

/-- Source `saveProfile`: the in-memory profile list after the call and whether the
write reached storage, given the list before it, the typed profile name, the
`Date.now().toString()` id, the current settings and whether
`AsyncStorage.setItem` fails.  A blank name alerts and returns early.
Otherwise `setProfiles(updatedProfiles)` runs *before*
`await AsyncStorage.setItem(...)`, and there is no `try/catch`: a failed
write rejects after the in-memory state was already replaced, with no
rollback. -/
def saveProfile {K : Type} (profiles : List (Profile K)) (profileName : String)
    (nowId : String) (settings : AppSettings K) (setItemFails : Bool) :
    List (Profile K) × Bool :=
  if isBlankName profileName then
    (profiles, false)
  else
    let newProfile : Profile K :=
      { id := nowId
        name := profileName
        focalLength := settings.focalLength
        pinholeSize := settings.pinholeSize
        filmFormat := settings.filmFormat
        filmOrientation := settings.filmOrientation.getD FilmOrientation.landscape
        iso := settings.iso }
    (profiles ++ [newProfile], !setItemFails)

end CameraSettingsScreen

/-! ## Definitions that follow the spec's words (for comparison with the
source-derived ones above) -/

namespace SpecModel

/-- The spec's general viewfinder-geometry algorithm, § 4.2: pick a
candidate height as a fixed fraction of the available vertical budget,
derive candidate width as height × aspect ratio, and only if that candidate
width exceeds the available width budget clamp the width to the budget and
re-derive height as width / aspect ratio. -/
def heightFirstSize {K : Type} [LinearOrderedField K]
    (heightFraction availableWidth availableHeight aspect : K) : K × K :=
  let candidateHeight := heightFraction * availableHeight
  let candidateWidth := candidateHeight * aspect
  if availableWidth < candidateWidth then
    (availableWidth, availableWidth / aspect)
  else
    (candidateWidth, candidateHeight)

/-- Step t0 of the claimed exposure chain:
`(1/iso) * (parseFloat((focalLength/pinholeSize).toFixed(1)) / R)^2`. -/
noncomputable def exposureStep0 (settings : AppSettings ℝ)
    (referenceFStop : ℝ) : ℝ :=
  (1 / settings.iso) *
    (parseFloatFixedOne (settings.focalLength / settings.pinholeSize) /
      referenceFStop) ^ 2

/-- Step t1: `t0 ^ 1.3` when `useReciprocityFailure` is true and `t0 > 1`,
else `t0`. -/
noncomputable def exposureStep1 (settings : AppSettings ℝ)
    (referenceFStop : ℝ) : ℝ :=
  if settings.useReciprocityFailure ∧ 1 < exposureStep0 settings referenceFStop then
    exposureStep0 settings referenceFStop ^ (1.3 : ℝ)
  else
    exposureStep0 settings referenceFStop

/-- Step t2: `8 * t1` when `useRedFilter` is true, else `t1`. -/
noncomputable def exposureStep2 (settings : AppSettings ℝ)
    (referenceFStop : ℝ) : ℝ :=
  if settings.useRedFilter then 8 * exposureStep1 settings referenceFStop
  else exposureStep1 settings referenceFStop

/-- Step t3: `t2 * 2 ^ bracketStops`. -/
noncomputable def exposureStep3 (settings : AppSettings ℝ)
    (referenceFStop : ℝ) : ℝ :=
  exposureStep2 settings referenceFStop * (2 : ℝ) ^ settings.bracketStops

end SpecModel


/-! ## Helper lemmas -/

/-- Both entries of `getEffectiveDimensions` are positive when the film
format's sides are. -/
lemma effectiveDimensions_pos {K : Type} [LinearOrderedField K]
    (s : AppSettings K) (hw : 0 < s.filmFormat.width)
    (hh : 0 < s.filmFormat.height) :
    0 < (ViewfinderScreen.getEffectiveDimensions s).1 ∧
      0 < (ViewfinderScreen.getEffectiveDimensions s).2 := by
  simp only [ViewfinderScreen.getEffectiveDimensions]
  split
  · exact ⟨by simpa using hh, by simpa using hw⟩
  · exact ⟨by simpa using hw, by simpa using hh⟩

/-- The width-first fitting step of the portrait branches is extensionally
the height-first algorithm of the spec, for a positive aspect ratio: both
compute the largest aspect-preserving rectangle inside the same bounding
box. -/
lemma widthFirst_eq_heightFirstSize {K : Type} [LinearOrderedField K]
    (W hB hf H a : K) (ha : 0 < a) (hH : hf * hB = H) :
    (if H < W / a then (H * a, H) else (W, W / a)) =
      SpecModel.heightFirstSize hf W hB a := by
  simp only [SpecModel.heightFirstSize, hH]
  rcases lt_trichotomy (H * a) W with h | h | h
  · rw [if_pos ((lt_div_iff₀ ha).2 h), if_neg (not_lt.2 h.le)]
  · rw [if_neg (not_lt.2 ((div_le_iff₀ ha).2 h.ge)), if_neg (not_lt.2 h.le)]
    exact Prod.ext h.symm (by rw [← h, mul_div_cancel_right₀ H (ne_of_gt ha)])
  · rw [if_neg (not_lt.2 ((div_lt_iff₀ ha).2 h).le), if_pos h]

/-- Unfolding `heightFirstSize` with the candidate height already
multiplied out, matching the shape of the landscape branches. -/
lemma heightFirstSize_candidate {K : Type} [LinearOrderedField K]
    (hf W hB h0 a : K) (hH : hf * hB = h0) :
    SpecModel.heightFirstSize hf W hB a =
      (if W < h0 * a then (W, W / a) else (h0 * a, h0)) := by
  simp only [SpecModel.heightFirstSize, hH]

/-! ## The claims -/

/-- Claim C10: The three near-duplicate viewfinder screens agree on the
exposure computation: `calculateFStop`, `formatExposure` and
`calculateExposure` of `ViewfinderScreen.tsx`, `part_002` and `part_003`
are extensionally equal, even though their `calculateViewfinderSize`
functions use different layout constants. -/
theorem c10_exposure_variants_agree :
    (∀ (K : Type) [inst : LinearOrderedField K] [inst2 : FloorRing K]
        (s : AppSettings K),
      Part002.calculateFStop s = ViewfinderScreen.calculateFStop s ∧
      Part003.calculateFStop s = ViewfinderScreen.calculateFStop s) ∧
    (∀ (K : Type) [inst : LinearOrderedField K] [inst2 : FloorRing K] (x : K),
      Part002.formatExposure x = ViewfinderScreen.formatExposure x ∧
      Part003.formatExposure x = ViewfinderScreen.formatExposure x) ∧
    (∀ (conditions : List (LightingCondition ℝ)) (s : AppSettings ℝ),
      Part002.calculateExposure conditions s =
        ViewfinderScreen.calculateExposure conditions s ∧
      Part003.calculateExposure conditions s =
        ViewfinderScreen.calculateExposure conditions s) :=
  ⟨fun _ _ _ _ => ⟨rfl, rfl⟩, fun _ _ _ _ => ⟨rfl, rfl⟩, fun _ _ => ⟨rfl, rfl⟩⟩

/-- Claim C9: `calculateExposure` yields `none` (never an error) whenever no
condition is selected or the exact-name lookup fails, and a non-`none`
result only ever arises from a successful lookup. -/
theorem c9_no_match_yields_none (conditions : List (LightingCondition ℝ))
    (s : AppSettings ℝ) :
    (s.selectedCondition = none →
      ViewfinderScreen.calculateExposure conditions s = none) ∧
    (∀ selected, s.selectedCondition = some selected →
      conditions.find? (fun c => c.name == selected) = none →
      ViewfinderScreen.calculateExposure conditions s = none) ∧
    (ViewfinderScreen.calculateExposure conditions s ≠ none →
      ∃ selected condition, s.selectedCondition = some selected ∧
        conditions.find? (fun c => c.name == selected) = some condition) := by
  refine ⟨fun h => ?_, fun selected hsel hfind => ?_, fun h => ?_⟩
  · simp [ViewfinderScreen.calculateExposure, ViewfinderScreen.exposureTimeOf, h]
  · by_cases hempty : selected = "" <;>
      simp [ViewfinderScreen.calculateExposure, ViewfinderScreen.exposureTimeOf,
        hsel, hfind, hempty]
  · rcases hsel : s.selectedCondition with _ | selected
    · exact absurd (by simp [ViewfinderScreen.calculateExposure,
        ViewfinderScreen.exposureTimeOf, hsel]) h
    · rcases hfind : conditions.find? (fun c => c.name == selected) with _ | condition
      · exact absurd (by by_cases hempty : selected = "" <;>
          simp [ViewfinderScreen.calculateExposure,
            ViewfinderScreen.exposureTimeOf, hsel, hfind, hempty]) h
      · exact ⟨selected, condition, rfl, hfind⟩

/-- Witness for C9: At the singleton catalog `[{name := "Sunny f/16"}]` and
a selected condition `"Night"` that matches nothing, the screen shows no
exposure. -/
theorem c9_no_match_yields_none_witness :
    ViewfinderScreen.calculateExposure [⟨"Sunny f/16", 16⟩]
      ⟨150, 0.3, ⟨"6x9", 9, 6⟩, none, 100, some "Night", 0, false, false⟩ =
      none :=
  (c9_no_match_yields_none [⟨"Sunny f/16", 16⟩]
    ⟨150, 0.3, ⟨"6x9", 9, 6⟩, none, 100, some "Night", 0, false, false⟩).2.1
    "Night" rfl rfl

/-- Counterexample for C2: The claim "saveProfile, when `AsyncStorage.setItem`
fails, leaves the in-memory profiles list unchanged" is false: starting from
an empty in-memory list, saving profile "Portra" with a failing write leaves
the new profile in the in-memory list. -/
theorem c2_counterexample :
    (CameraSettingsScreen.saveProfile ([] : List (CameraSettingsScreen.Profile ℚ))
        "Portra" "1700000000000"
        ⟨150, 0.3, ⟨"6x9", 9, 6⟩, none, 100, none, 0, false, false⟩ true).1 ≠
      ([] : List (CameraSettingsScreen.Profile ℚ)) := by
  rw [CameraSettingsScreen.saveProfile, if_neg (by decide)]
  simp

/-- Claim C2 amended: `loadProfiles` leaves the in-memory list unchanged when
the storage read throws.  `saveProfile`, however, replaces the in-memory
list with the appended one *before* the write, so when
`AsyncStorage.setItem` fails the new profile is still visible in memory and
only the write-success flag records the failure; nothing is rolled back. -/
theorem c2_load_unchanged_save_not_rolled_back {K : Type}
    (profiles : List (CameraSettingsScreen.Profile K)) :
    (∀ message, CameraSettingsScreen.loadProfiles profiles
        (Except.error message) = profiles) ∧
    (∀ (profileName nowId : String) (settings : AppSettings K),
      CameraSettingsScreen.isBlankName profileName = false →
      CameraSettingsScreen.saveProfile profiles profileName nowId settings true =
        (profiles ++
          [{ id := nowId
             name := profileName
             focalLength := settings.focalLength
             pinholeSize := settings.pinholeSize
             filmFormat := settings.filmFormat
             filmOrientation :=
               settings.filmOrientation.getD FilmOrientation.landscape
             iso := settings.iso }], false)) := by
  refine ⟨fun _ => rfl, fun profileName nowId settings hname => ?_⟩
  rw [CameraSettingsScreen.saveProfile, if_neg (by simp [hname])]
  rfl

/-- Witness for C2: Concrete run of the amended statement: the failed write
still appends "Portra" to the in-memory list, and a failed read leaves the
list empty. -/
theorem c2_load_unchanged_save_not_rolled_back_witness :
    CameraSettingsScreen.isBlankName "Portra" = false ∧
    CameraSettingsScreen.saveProfile ([] : List (CameraSettingsScreen.Profile ℚ))
        "Portra" "1700000000000"
        ⟨150, 0.3, ⟨"6x9", 9, 6⟩, none, 100, none, 0, false, false⟩ true =
      ([⟨"1700000000000", "Portra", 150, 0.3, ⟨"6x9", 9, 6⟩,
          FilmOrientation.landscape, 100⟩], false) ∧
    CameraSettingsScreen.loadProfiles ([] : List (CameraSettingsScreen.Profile ℚ))
        (Except.error "read failed") = [] :=
  ⟨rfl,
    (c2_load_unchanged_save_not_rolled_back []).2 "Portra" "1700000000000"
      ⟨150, 0.3, ⟨"6x9", 9, 6⟩, none, 100, none, 0, false, false⟩ rfl,
    (c2_load_unchanged_save_not_rolled_back []).1 "read failed"⟩

/-- Claim C7: With a matched lighting condition, raising `bracketStops` by one
stop doubles the pre-format exposure time exactly, whatever the states of
the reciprocity-failure and red-filter flags. -/
theorem c7_bracket_stop_doubles (conditions : List (LightingCondition ℝ))
    (s : AppSettings ℝ) (selected : String) (condition : LightingCondition ℝ)
    (hsel : s.selectedCondition = some selected) (hne : selected ≠ "")
    (hfind : conditions.find? (fun c => c.name == selected) = some condition) :
    ViewfinderScreen.exposureTimeOf conditions
        { s with bracketStops := s.bracketStops + 1 } =
      Option.map (fun t => 2 * t)
        (ViewfinderScreen.exposureTimeOf conditions s) := by
  simp only [ViewfinderScreen.exposureTimeOf, hsel, hfind, if_neg hne,
    Option.map_some', Option.some.injEq]
  rw [zpow_add_one₀ (by norm_num : (2 : ℝ) ≠ 0)]
  ring

/-- Witness for C7: Concrete doubling: focal length 150 mm, pinhole 0.3 mm,
ISO 100 against a matched "Sunny f/16" entry. -/
theorem c7_bracket_stop_doubles_witness :
    ViewfinderScreen.exposureTimeOf [⟨"Sunny f/16", 16⟩]
        ⟨150, 0.3, ⟨"6x9", 9, 6⟩, none, 100, some "Sunny f/16", 1, true, true⟩ =
      Option.map (fun t => 2 * t)
        (ViewfinderScreen.exposureTimeOf [⟨"Sunny f/16", 16⟩]
          ⟨150, 0.3, ⟨"6x9", 9, 6⟩, none, 100, some "Sunny f/16", 0, true, true⟩) :=
  c7_bracket_stop_doubles [⟨"Sunny f/16", 16⟩]
    ⟨150, 0.3, ⟨"6x9", 9, 6⟩, none, 100, some "Sunny f/16", 0, true, true⟩
    "Sunny f/16" ⟨"Sunny f/16", 16⟩ rfl (by decide) rfl

/-- Claim C8: With a matched lighting condition, the pre-format exposure time
with the red filter on is exactly eight times the one with it off, all other
fields equal; the factor is applied after the reciprocity decision, which
does not depend on it. -/
theorem c8_red_filter_times_eight (conditions : List (LightingCondition ℝ))
    (s : AppSettings ℝ) (selected : String) (condition : LightingCondition ℝ)
    (hsel : s.selectedCondition = some selected) (hne : selected ≠ "")
    (hfind : conditions.find? (fun c => c.name == selected) = some condition) :
    ViewfinderScreen.exposureTimeOf conditions { s with useRedFilter := true } =
      Option.map (fun t => 8 * t)
        (ViewfinderScreen.exposureTimeOf conditions
          { s with useRedFilter := false }) := by
  simp only [ViewfinderScreen.exposureTimeOf, hsel, hfind, if_neg hne,
    Option.map_some', Option.some.injEq, if_true, if_false]
  split_ifs <;> first
  | exact (by assumption : False).elim
  | ring

/-- Witness for C8: Concrete eightfold ratio at the same camera settings,
with reciprocity enabled and one bracketing stop. -/
theorem c8_red_filter_times_eight_witness :
    ViewfinderScreen.exposureTimeOf [⟨"Sunny f/16", 16⟩]
        ⟨150, 0.3, ⟨"6x9", 9, 6⟩, none, 100, some "Sunny f/16", 1, true, true⟩ =
      Option.map (fun t => 8 * t)
        (ViewfinderScreen.exposureTimeOf [⟨"Sunny f/16", 16⟩]
          ⟨150, 0.3, ⟨"6x9", 9, 6⟩, none, 100, some "Sunny f/16", 1, true, false⟩) :=
  c8_red_filter_times_eight [⟨"Sunny f/16", 16⟩]
    ⟨150, 0.3, ⟨"6x9", 9, 6⟩, none, 100, some "Sunny f/16", 1, true, true⟩
    "Sunny f/16" ⟨"Sunny f/16", 16⟩ rfl (by decide) rfl

/-- Claim C5: With a matched condition and `useReciprocityFailure = true`, the
`^1.3` correction fires exactly when the pre-correction value
`(1/iso) * (actualFStop/referenceFStop)^2` exceeds one second; at or below
one second the result (pre-format and displayed) coincides with the
`useReciprocityFailure = false` run. -/
theorem c5_reciprocity_threshold (conditions : List (LightingCondition ℝ))
    (s : AppSettings ℝ) (selected : String) (condition : LightingCondition ℝ)
    (hsel : s.selectedCondition = some selected) (hne : selected ≠ "")
    (hfind : conditions.find? (fun c => c.name == selected) = some condition)
    (hflag : s.useReciprocityFailure = true) :
    (1 < SpecModel.exposureStep0 s condition.fStop →
      ViewfinderScreen.exposureTimeOf conditions s =
        some ((if s.useRedFilter
                then SpecModel.exposureStep0 s condition.fStop ^ (1.3 : ℝ) * 8
                else SpecModel.exposureStep0 s condition.fStop ^ (1.3 : ℝ)) *
              (2 : ℝ) ^ s.bracketStops)) ∧
    (SpecModel.exposureStep0 s condition.fStop ≤ 1 →
      ViewfinderScreen.exposureTimeOf conditions s =
        some ((if s.useRedFilter
                then SpecModel.exposureStep0 s condition.fStop * 8
                else SpecModel.exposureStep0 s condition.fStop) *
              (2 : ℝ) ^ s.bracketStops) ∧
      ViewfinderScreen.calculateExposure conditions s =
        ViewfinderScreen.calculateExposure conditions
          { s with useReciprocityFailure := false }) := by
  constructor
  · intro h
    rw [SpecModel.exposureStep0] at h
    simp only [ViewfinderScreen.exposureTimeOf, hsel, hfind, if_neg hne,
      SpecModel.exposureStep0]
    rw [if_pos (And.intro hflag h)]
  · intro h
    rw [SpecModel.exposureStep0] at h
    have hncond : ¬ (s.useReciprocityFailure = true ∧
        1 < 1 / s.iso *
          (parseFloatFixedOne (s.focalLength / s.pinholeSize) /
            condition.fStop) ^ 2) :=
      fun hc => absurd hc.2 (not_lt.2 h)
    have hncond2 : ¬ ((false = true) ∧
        1 < 1 / s.iso *
          (parseFloatFixedOne (s.focalLength / s.pinholeSize) /
            condition.fStop) ^ 2) :=
      fun hc => absurd hc.1 Bool.false_ne_true
    constructor
    · simp only [ViewfinderScreen.exposureTimeOf, hsel, hfind, if_neg hne,
        SpecModel.exposureStep0]
      rw [if_neg hncond]
    · simp only [ViewfinderScreen.calculateExposure,
        ViewfinderScreen.exposureTimeOf, hsel, hfind, if_neg hne]
      rw [if_neg hncond, if_neg hncond2]

/-- Witness for C5: At ISO 100, f/500 against reference f/16 the
pre-correction exposure is below one second, so enabling reciprocity
changes nothing. -/
theorem c5_reciprocity_threshold_witness :
    SpecModel.exposureStep0
        ⟨150, 15, ⟨"6x9", 9, 6⟩, none, 100, some "Sunny f/16", 0, true, false⟩
        (16 : ℝ) ≤ 1 ∧
    ViewfinderScreen.calculateExposure [⟨"Sunny f/16", 16⟩]
        ⟨150, 15, ⟨"6x9", 9, 6⟩, none, 100, some "Sunny f/16", 0, true, false⟩ =
      ViewfinderScreen.calculateExposure [⟨"Sunny f/16", 16⟩]
        ⟨150, 15, ⟨"6x9", 9, 6⟩, none, 100, some "Sunny f/16", 0, false, false⟩ := by
  have hstep : SpecModel.exposureStep0
      ⟨150, 15, ⟨"6x9", 9, 6⟩, none, 100, some "Sunny f/16", 0, true, false⟩
      (16 : ℝ) ≤ 1 := by
    rw [SpecModel.exposureStep0, parseFloatFixedOne]
    have h10 : round ((10 : ℝ) * (150 / 15)) = 100 := by
      rw [round_eq]; norm_num
    rw [h10]
    norm_num
  exact ⟨hstep,
    ((c5_reciprocity_threshold [⟨"Sunny f/16", 16⟩]
        ⟨150, 15, ⟨"6x9", 9, 6⟩, none, 100, some "Sunny f/16", 0, true, false⟩
        "Sunny f/16" ⟨"Sunny f/16", 16⟩ rfl (by decide) rfl rfl).2 hstep).2⟩

/-- Claim C1: With positive focal length, pinhole size and ISO and a selected
condition that exactly matches a catalog entry, `calculateExposure` renders
with `formatExposure` precisely the value of the claimed four-step chain:
t0 = (1/iso) * (parseFloat((focalLength/pinholeSize).toFixed(1)) / R)^2,
then the conditional `^1.3` reciprocity correction, then the conditional
`*8` red-filter factor, then `* 2^bracketStops`. -/
theorem c1_exposure_pipeline (conditions : List (LightingCondition ℝ))
    (s : AppSettings ℝ) (selected : String) (condition : LightingCondition ℝ)
    (hfocal : 0 < s.focalLength) (hpinhole : 0 < s.pinholeSize)
    (hiso : 0 < s.iso)
    (hsel : s.selectedCondition = some selected) (hne : selected ≠ "")
    (hfind : conditions.find? (fun c => c.name == selected) = some condition) :
    ViewfinderScreen.calculateExposure conditions s =
      some (ViewfinderScreen.formatExposure
        (SpecModel.exposureStep3 s condition.fStop)) := by
  simp only [ViewfinderScreen.calculateExposure, ViewfinderScreen.exposureTimeOf,
    hsel, hfind, if_neg hne, Option.map_some', Option.some.injEq]
  congr 1
  simp only [SpecModel.exposureStep3, SpecModel.exposureStep2,
    SpecModel.exposureStep1, SpecModel.exposureStep0, hsel]
  split_ifs <;> first
  | exact (by assumption : False).elim
  | ring

/-- Witness for C1: The pipeline at focal length 150 mm, pinhole 0.3 mm,
ISO 100, one bracketing stop, both flags on, matched against "Sunny f/16". -/
theorem c1_exposure_pipeline_witness :
    (0 : ℝ) < 150 ∧ (0 : ℝ) < 0.3 ∧ (0 : ℝ) < 100 ∧
    ViewfinderScreen.calculateExposure [⟨"Sunny f/16", 16⟩]
        ⟨150, 0.3, ⟨"6x9", 9, 6⟩, none, 100, some "Sunny f/16", 1, true, true⟩ =
      some (ViewfinderScreen.formatExposure (SpecModel.exposureStep3
        ⟨150, 0.3, ⟨"6x9", 9, 6⟩, none, 100, some "Sunny f/16", 1, true, true⟩
        (16 : ℝ))) :=
  ⟨by norm_num, by norm_num, by norm_num,
    c1_exposure_pipeline [⟨"Sunny f/16", 16⟩]
      ⟨150, 0.3, ⟨"6x9", 9, 6⟩, none, 100, some "Sunny f/16", 1, true, true⟩
      "Sunny f/16" ⟨"Sunny f/16", 16⟩ (by norm_num) (by norm_num) (by norm_num)
      rfl (by decide) rfl⟩

/-- Claim C3: Every layout variant of `calculateViewfinderSize` (device
landscape and portrait in each of the three screens) is extensionally the
spec's height-first algorithm at that branch's constants: a candidate
height as a fixed fraction of the vertical budget, width derived by the
aspect ratio, clamped to the width budget only when the candidate exceeds
it.  (The portrait branches compute width first, but for a positive aspect
ratio that is the same function.) -/
theorem c3_height_first_all_variants {K : Type} [LinearOrderedField K]
    (sw sh : K) (s : AppSettings K)
    (hw : 0 < s.filmFormat.width) (hh : 0 < s.filmFormat.height) :
    (sh < sw →
      ViewfinderScreen.calculateViewfinderSize sw sh s =
        SpecModel.heightFirstSize 0.92 (sw * 0.58) (sh - 20)
          ((ViewfinderScreen.getEffectiveDimensions s).1 /
            (ViewfinderScreen.getEffectiveDimensions s).2) ∧
      Part002.calculateViewfinderSize sw sh s =
        SpecModel.heightFirstSize 0.85 (sw * 0.85) (sh - 200)
          ((Part002.getEffectiveDimensions s).1 /
            (Part002.getEffectiveDimensions s).2) ∧
      Part003.calculateViewfinderSize sw sh s =
        SpecModel.heightFirstSize 0.85 (sw * 0.56 * 0.9) (sh - 80)
          ((Part003.getEffectiveDimensions s).1 /
            (Part003.getEffectiveDimensions s).2)) ∧
    (¬ sh < sw →
      ViewfinderScreen.calculateViewfinderSize sw sh s =
        SpecModel.heightFirstSize 0.50 ((sw - 32) * 0.95) sh
          ((ViewfinderScreen.getEffectiveDimensions s).1 /
            (ViewfinderScreen.getEffectiveDimensions s).2) ∧
      Part002.calculateViewfinderSize sw sh s =
        SpecModel.heightFirstSize 0.55 ((sw - 48) * 0.95) sh
          ((Part002.getEffectiveDimensions s).1 /
            (Part002.getEffectiveDimensions s).2) ∧
      Part003.calculateViewfinderSize sw sh s =
        SpecModel.heightFirstSize 0.50 ((sw - 32) * 0.95) sh
          ((Part003.getEffectiveDimensions s).1 /
            (Part003.getEffectiveDimensions s).2)) := by
  obtain ⟨h1, h2⟩ := effectiveDimensions_pos s hw hh
  have ha : 0 < (ViewfinderScreen.getEffectiveDimensions s).1 /
      (ViewfinderScreen.getEffectiveDimensions s).2 := div_pos h1 h2
  refine ⟨fun hls => ⟨?_, ?_, ?_⟩, fun hpt => ⟨?_, ?_, ?_⟩⟩
  · simp only [ViewfinderScreen.calculateViewfinderSize]
    rw [if_pos hls]
    exact (heightFirstSize_candidate 0.92 (sw * 0.58) (sh - 20)
      ((sh - 20) * 0.92) _ (mul_comm _ _)).symm
  · simp only [Part002.calculateViewfinderSize]
    rw [if_pos hls]
    exact (heightFirstSize_candidate 0.85 (sw * 0.85) (sh - 200)
      ((sh - 200) * 0.85) _ (mul_comm _ _)).symm
  · simp only [Part003.calculateViewfinderSize]
    rw [if_pos hls]
    exact (heightFirstSize_candidate 0.85 (sw * 0.56 * 0.9) (sh - 80)
      ((sh - 80) * 0.85) _ (mul_comm _ _)).symm
  · simp only [ViewfinderScreen.calculateViewfinderSize]
    rw [if_neg hpt]
    exact widthFirst_eq_heightFirstSize ((sw - 32) * 0.95) sh 0.50 (sh * 0.50)
      _ ha (mul_comm _ _)
  · simp only [Part002.calculateViewfinderSize]
    rw [if_neg hpt]
    exact widthFirst_eq_heightFirstSize ((sw - 48) * 0.95) sh 0.55 (sh * 0.55)
      _ ha (mul_comm _ _)
  · simp only [Part003.calculateViewfinderSize]
    rw [if_neg hpt]
    exact widthFirst_eq_heightFirstSize ((sw - 32) * 0.95) sh 0.50 (sh * 0.50)
      _ ha (mul_comm _ _)

/-- Witness for C3: The main screen on an 800×400 landscape display with a
9×6 film frame equals the height-first algorithm at that branch's
constants. -/
theorem c3_height_first_all_variants_witness :
    (0 : ℚ) < 9 ∧ (0 : ℚ) < 6 ∧
    ViewfinderScreen.calculateViewfinderSize (800 : ℚ) 400
        ⟨150, 0.3, ⟨"6x9", 9, 6⟩, none, 100, none, 0, false, false⟩ =
      SpecModel.heightFirstSize 0.92 (800 * 0.58) (400 - 20)
        ((ViewfinderScreen.getEffectiveDimensions
            (⟨150, 0.3, ⟨"6x9", 9, 6⟩, none, 100, none, 0, false, false⟩ :
              AppSettings ℚ)).1 /
          (ViewfinderScreen.getEffectiveDimensions
            (⟨150, 0.3, ⟨"6x9", 9, 6⟩, none, 100, none, 0, false, false⟩ :
              AppSettings ℚ)).2) :=
  ⟨by norm_num, by norm_num,
    ((c3_height_first_all_variants (800 : ℚ) 400
        ⟨150, 0.3, ⟨"6x9", 9, 6⟩, none, 100, none, 0, false, false⟩
        (by norm_num) (by norm_num)).1 (by norm_num)).1⟩

/-- Counterexample for C4: The claim promises the budget bounds for *every*
screen with positive width and height; on a degenerate 400×10 screen (the
landscape branch, whose height budget `screenHeight - 20` is negative) with
a 1×1 format, the returned height `-9.2` exceeds the branch's height budget
`-10`. -/
theorem c4_counterexample :
    (0 : ℚ) < 400 ∧ (0 : ℚ) < 10 ∧ (0 : ℚ) < 1 ∧
    ¬ ((ViewfinderScreen.calculateViewfinderSize (400 : ℚ) 10
          ⟨150, 0.3, ⟨"1x1", 1, 1⟩, none, 100, none, 0, false, false⟩).2 ≤
        10 - 20) := by
  refine ⟨by norm_num, by norm_num, by norm_num, ?_⟩
  have h : (ViewfinderScreen.calculateViewfinderSize (400 : ℚ) 10
      ⟨150, 0.3, ⟨"1x1", 1, 1⟩, none, 100, none, 0, false, false⟩).2 =
      -46 / 5 := by
    simp [ViewfinderScreen.calculateViewfinderSize,
      ViewfinderScreen.getEffectiveDimensions]
    norm_num
  rw [h]
  norm_num

/-- Claim C4 amended: For positive screen and film dimensions, and screens
at least as large as the branch's fixed margins (height ≥ 20 px in the
device-landscape branch, width ≥ 32 px in the device-portrait branch),
the main screen's viewfinder rectangle preserves the effective aspect
ratio exactly (stated multiplicatively) and fits inside that branch's
availability budget; the effective dimensions are the format's sides,
swapped exactly when `filmOrientation` is `portrait` (absent behaves as
landscape). -/
theorem c4_geometry_fits {K : Type} [LinearOrderedField K]
    (sw sh : K) (s : AppSettings K)
    (hsw : 0 < sw) (hsh : 0 < sh)
    (hw : 0 < s.filmFormat.width) (hh : 0 < s.filmFormat.height)
    (hm1 : sh < sw → 20 ≤ sh) (hm2 : ¬ sh < sw → 32 ≤ sw) :
    ViewfinderScreen.getEffectiveDimensions s =
      (if s.filmOrientation = some FilmOrientation.portrait
        then (s.filmFormat.height, s.filmFormat.width)
        else (s.filmFormat.width, s.filmFormat.height)) ∧
    (ViewfinderScreen.calculateViewfinderSize sw sh s).1 *
        (ViewfinderScreen.getEffectiveDimensions s).2 =
      (ViewfinderScreen.calculateViewfinderSize sw sh s).2 *
        (ViewfinderScreen.getEffectiveDimensions s).1 ∧
    (sh < sw →
      (ViewfinderScreen.calculateViewfinderSize sw sh s).1 ≤ sw * 0.58 ∧
      (ViewfinderScreen.calculateViewfinderSize sw sh s).2 ≤ sh - 20) ∧
    (¬ sh < sw →
      (ViewfinderScreen.calculateViewfinderSize sw sh s).1 ≤ sw - 32 ∧
      (ViewfinderScreen.calculateViewfinderSize sw sh s).2 ≤ sh * 0.50) := by
  obtain ⟨h1, h2⟩ := effectiveDimensions_pos s hw hh
  have ha : 0 < (ViewfinderScreen.getEffectiveDimensions s).1 /
      (ViewfinderScreen.getEffectiveDimensions s).2 := div_pos h1 h2
  refine ⟨?_, ?_, fun hls => ?_, fun hpt => ?_⟩
  · rcases horient : s.filmOrientation with _ | o
    · simp [ViewfinderScreen.getEffectiveDimensions, horient]
    · cases o <;> simp [ViewfinderScreen.getEffectiveDimensions, horient]
  · simp only [ViewfinderScreen.calculateViewfinderSize]
    split_ifs with hls hc hc <;>
      field_simp <;> ring
  · have h20 := hm1 hls
    simp only [ViewfinderScreen.calculateViewfinderSize]
    rw [if_pos hls]
    split_ifs with hc
    · exact ⟨le_refl _, ((div_lt_iff₀ ha).2 hc).le.trans
        (mul_le_of_le_one_right (by linarith) (by norm_num))⟩
    · exact ⟨not_lt.1 hc,
        mul_le_of_le_one_right (by linarith) (by norm_num)⟩
  · have h32 := hm2 hpt
    simp only [ViewfinderScreen.calculateViewfinderSize]
    rw [if_neg hpt]
    split_ifs with hc
    · exact ⟨((lt_div_iff₀ ha).1 hc).le.trans
        (mul_le_of_le_one_right (by linarith) (by norm_num)), le_refl _⟩
    · exact ⟨mul_le_of_le_one_right (by linarith) (by norm_num), not_lt.1 hc⟩

/-- Witness for C4: The amended statement at an 800×400 landscape display
with a 9×6 frame. -/
theorem c4_geometry_fits_witness :
    (0 : ℚ) < 800 ∧ (0 : ℚ) < 400 ∧ (0 : ℚ) < 9 ∧ (0 : ℚ) < 6 ∧
    ((400 : ℚ) < 800 →
      (ViewfinderScreen.calculateViewfinderSize (800 : ℚ) 400
          ⟨150, 0.3, ⟨"6x9", 9, 6⟩, none, 100, none, 0, false, false⟩).1 ≤
        800 * 0.58 ∧
      (ViewfinderScreen.calculateViewfinderSize (800 : ℚ) 400
          ⟨150, 0.3, ⟨"6x9", 9, 6⟩, none, 100, none, 0, false, false⟩).2 ≤
        400 - 20) :=
  ⟨by norm_num, by norm_num, by norm_num, by norm_num,
    (c4_geometry_fits (800 : ℚ) 400
      ⟨150, 0.3, ⟨"6x9", 9, 6⟩, none, 100, none, 0, false, false⟩
      (by norm_num) (by norm_num) (by norm_num) (by norm_num)
      (fun _ => by norm_num) (fun hpt => absurd (by norm_num) hpt)).2.2.1⟩

/-- Claim C6: `formatExposure` renders: below one second as the reciprocal
`"1/{round(1/s)}s"`; from one second up to a minute with exactly one decimal
place and an `"s"` suffix; from a minute on as `"{floor(s/60)}m {round(s mod 60)}s"`
with the seconds part dropped exactly when the rounded remainder is zero.
Concretely, 0.5 → "1/2s", 2.3 → "2.3s", 75 → "1m 15s", 120 → "2m". -/
theorem c6_formatExposure_rendering :
    (∀ (K : Type) [inst : LinearOrderedField K] [inst2 : FloorRing K]
        (seconds : K), 0 < seconds →
      (seconds < 1 →
        ViewfinderScreen.formatExposure seconds =
          "1/" ++ toString (round (1 / seconds)) ++ "s") ∧
      (1 ≤ seconds → seconds < 60 →
        ViewfinderScreen.formatExposure seconds = toFixedOne seconds ++ "s") ∧
      (60 ≤ seconds →
        ViewfinderScreen.formatExposure seconds =
          if round (seconds - 60 * ((⌊seconds / 60⌋ : ℤ) : K)) ≠ 0 then
            toString ⌊seconds / 60⌋ ++ "m " ++
              toString (round (seconds - 60 * ((⌊seconds / 60⌋ : ℤ) : K))) ++ "s"
          else
            toString ⌊seconds / 60⌋ ++ "m")) ∧
    ViewfinderScreen.formatExposure ((1 : ℚ) / 2) = "1/2s" ∧
    ViewfinderScreen.formatExposure ((23 : ℚ) / 10) = "2.3s" ∧
    ViewfinderScreen.formatExposure (75 : ℚ) = "1m 15s" ∧
    ViewfinderScreen.formatExposure (120 : ℚ) = "2m" := by
  refine ⟨?_, ?_, ?_, ?_, ?_⟩
  · intro K instF instFR seconds hpos
    refine ⟨fun hlt => ?_, fun h1 h60 => ?_, fun h60 => ?_⟩
    · rw [ViewfinderScreen.formatExposure, if_pos hlt]
    · rw [ViewfinderScreen.formatExposure, if_neg (not_lt.2 h1), if_pos h60]
    · rw [ViewfinderScreen.formatExposure, if_neg (not_lt.2 (by linarith)),
        if_neg (not_lt.2 h60)]
      have hfl : ((⌊seconds / 60⌋ : ℤ) : K) ≤ seconds / 60 := Int.floor_le _
      have hmul : (60 : K) * (seconds / 60) = seconds := by
        rw [mul_comm, div_mul_cancel₀]
        norm_num
      have hx : (0 : K) ≤ seconds - 60 * ((⌊seconds / 60⌋ : ℤ) : K) := by
        have := mul_le_mul_of_nonneg_left hfl (by norm_num : (0 : K) ≤ 60)
        linarith
      have hr : 0 ≤ round (seconds - 60 * ((⌊seconds / 60⌋ : ℤ) : K)) := by
        rw [round_eq]
        exact Int.le_floor.2 (by push_cast; linarith)
      rcases lt_or_eq_of_le hr with h | h
      · rw [if_pos h, if_pos h.ne']
      · rw [if_neg (by rw [← h]; exact lt_irrefl 0), if_neg (by rw [← h]; simp)]
  · rw [ViewfinderScreen.formatExposure, if_pos (by norm_num)]
    have h : round ((1 : ℚ) / (1 / 2)) = 2 := by rw [round_eq]; norm_num
    rw [h]; rfl
  · rw [ViewfinderScreen.formatExposure, if_neg (by norm_num),
      if_pos (by norm_num), toFixedOne]
    have h : round (10 * ((23 : ℚ) / 10)) = 23 := by rw [round_eq]; norm_num
    rw [h]; rfl
  · rw [ViewfinderScreen.formatExposure, if_neg (by norm_num),
      if_neg (by norm_num)]
    have h1 : ⌊(75 : ℚ) / 60⌋ = 1 := by norm_num
    have h2 : round ((75 : ℚ) - 60 * ((⌊(75 : ℚ) / 60⌋ : ℤ) : ℚ)) = 15 := by
      rw [h1, round_eq]; norm_num
    rw [h2, h1, if_pos (by norm_num)]; rfl
  · rw [ViewfinderScreen.formatExposure, if_neg (by norm_num),
      if_neg (by norm_num)]
    have h1 : ⌊(120 : ℚ) / 60⌋ = 2 := by norm_num
    have h2 : round ((120 : ℚ) - 60 * ((⌊(120 : ℚ) / 60⌋ : ℤ) : ℚ)) = 0 := by
      rw [h1, round_eq]; norm_num
    rw [h2, h1, if_neg (by norm_num)]; rfl

/-- Witness for C6: The sub-second branch at one half second. -/
theorem c6_formatExposure_rendering_witness :
    (0 : ℚ) < 1 / 2 ∧
    ViewfinderScreen.formatExposure ((1 : ℚ) / 2) =
      "1/" ++ toString (round ((1 : ℚ) / (1 / 2))) ++ "s" :=
  ⟨by norm_num,
    (c6_formatExposure_rendering.1 ℚ ((1 : ℚ) / 2) (by norm_num)).1
      (by norm_num)⟩
